import Mathlib

/-!
Verification of the voice-driven image studio core (`src/App.tsx`,
`src/types.ts`).

The embedding below translates the state and handlers of the React
component into pure Lean functions:

* React `useState` / `useRef` cells become fields of `AppState`;
* device time and audio-buffer durations are rationals (`ℚ`);
* the remote generation endpoint's answer is passed in as a
  `GenOutcome` value (a thrown request error or a response with parts);
* `console.error` calls are collected in a log list;
* errors that the source swallows (`try { … } catch(e) {}`) are modelled
  by total functions whose result does not depend on the swallowed error.
-/

/-- `HistoryItem` from `src/types.ts`. -/
structure HistoryItem where
  url : String
  base64 : String
  timestamp : String
deriving Repr, DecidableEq

/-- `ImageState` from `src/types.ts`: current artifact plus bounded history. -/
structure ImageState where
  url : Option String
  base64 : Option String
  timestamp : Option String
  history : List HistoryItem
deriving Repr, DecidableEq

/-- `AppStatus` from `src/types.ts`. -/
inductive AppStatus where
  | IDLE
  | GENERATING
  | EDITING
  | VOICE_CONNECTING
  | VOICE_ACTIVE
deriving Repr, DecidableEq

/-- An `AudioBufferSourceNode` kept in `sourcesRef`.  `finished` records
whether the node has already ended, in which case `stop()` throws (the
source wraps every such call in `try … catch`). -/
structure PlaybackSource where
  id : Nat
  finished : Bool
deriving Repr, DecidableEq

/-- The pair of `AudioContext`s held in `audioContextRef`; each side
remembers whether it has been closed (the `state !== 'closed'` guard). -/
structure AudioContextPair where
  inputClosed : Bool
  outputClosed : Bool
deriving Repr, DecidableEq

/-- The component state of `App`: the `useState` cells (`status`,
`imageState`, `isLiveActive`, `aiResponseText`) and the `useRef` cells
(`audioContextRef`, `nextStartTimeRef`, `sourcesRef`, `sessionRef`,
`streamRef`).  Session and stream handles are opaque; we name them by
`Nat` identifiers. -/
structure AppState where
  status : AppStatus
  imageState : ImageState
  isLiveActive : Bool
  aiResponseText : String
  audioContext : Option AudioContextPair
  nextStartTime : ℚ
  sources : List PlaybackSource
  session : Option Nat
  stream : Option Nat
deriving Repr, DecidableEq

/-- The freshly-constructed idle state: the initial values of every
`useState` and `useRef` cell in `App`. -/
def initState : AppState :=
  { status := AppStatus.IDLE
    imageState := { url := none, base64 := none, timestamp := none, history := [] }
    isLiveActive := false
    aiResponseText := ""
    audioContext := none
    nextStartTime := 0
    sources := []
    session := none
    stream := none }

/-- `stopVoiceSession` (`src/App.tsx` lines 254-294).  The five numbered
steps of the source, in order: (1) clear the session ref, (2) stop the
microphone tracks and clear the stream ref, (3) close both audio
contexts (guarded against double close) and clear the ref, (4) stop and
clear the playback sources and reset the cursor, (5) reset the UI state.
Every individual error in the source is swallowed, so the handler is a
total function on states. -/
def stopVoiceSession (st : AppState) : AppState :=
  let st1 := { st with session := none }
  let st2 := { st1 with stream := none }
  let st3 := { st2 with audioContext := none }
  let st4 := { st3 with sources := [], nextStartTime := 0 }
  { st4 with isLiveActive := false, status := AppStatus.IDLE, aiResponseText := "" }

/-- `source.stop()` on a playback node: throws when the node has already
finished, succeeds otherwise.  Callers in the source always swallow the
error. -/
def stopSource (s : PlaybackSource) : Except Unit Unit :=
  if s.finished then Except.error () else Except.ok ()

/-- The `sourcesRef.current.forEach(s => { try { s.stop(); } catch(e) {} })`
loop: every source receives a `stop` call; the per-source outcome
(success or swallowed error) is recorded alongside its id. -/
def stopAllSources : List PlaybackSource → List (Nat × Except Unit Unit)
  | [] => []
  | s :: rest => (s.id, stopSource s) :: stopAllSources rest

/-- The `msg.serverContent?.interrupted` branch of `onmessage`
(`src/App.tsx` lines 226-232): stop every active source (errors
swallowed), clear the set, reset the cursor to zero.  Returns the new
state together with the list of `stop` calls that were issued. -/
def handleInterrupted (st : AppState) : AppState × List (Nat × Except Unit Unit) :=
  ({ st with sources := [], nextStartTime := 0 }, stopAllSources st.sources)

/-- One inbound audio chunk as seen by the scheduling code in
`onmessage`: the output context's `currentTime` observed when the chunk
is handled, and the decoded buffer's `duration`. -/
structure AudioChunk where
  ctxTime : ℚ
  duration : ℚ
deriving Repr, DecidableEq

/-- The audio-scheduling lines of `onmessage` (`src/App.tsx` lines
190-202), iterated over a run of audio-carrying messages with no
intervening interruption.  For each chunk the code sets
`nextStartTime := max nextStartTime ctx.currentTime`, starts the source
at that time, and then advances `nextStartTime` by the buffer duration.
Returns the list of scheduled start times, in receive order. -/
def scheduleChunks (cursor : ℚ) : List AudioChunk → List ℚ
  | [] => []
  | c :: rest =>
      max cursor c.ctxTime :: scheduleChunks (max cursor c.ctxTime + c.duration) rest

/-- One content part of a generation/edit response
(`response.candidates[0].content.parts`). -/
structure RespPart where
  inlineData : Option String
  text : Option String
deriving Repr, DecidableEq

/-- What the remote generation endpoint did for one request: either the
request threw (network/service error) or it returned a list of parts. -/
inductive GenOutcome where
  | threw
  | response (parts : List RespPart)
deriving Repr, DecidableEq

/-- The `for (const part of …parts) { if (part.inlineData) { …; break } }`
loop: the first part carrying inline data, if any. -/
def firstInlineData : List RespPart → Option String
  | [] => none
  | p :: rest =>
    match p.inlineData with
    | some d => some d
    | none => firstInlineData rest

/-- The new history entry built from an inline-data payload:
`url = "data:image/png;base64," ++ data`. -/
def mkHistoryItem (data ts : String) : HistoryItem :=
  { url := "data:image/png;base64," ++ data, base64 := data, timestamp := ts }

/-- The `setImageState` update both `generateImage` and `editImage`
perform when an inline-image part is found: replace the current
artifact and prepend the new item to the history, keeping
`slice(0, 10)`. -/
def applyInline (st : AppState) (data ts : String) : AppState :=
  let item := mkHistoryItem data ts
  { st with imageState :=
      { st.imageState with
        url := some item.url
        base64 := some data
        timestamp := some ts
        history := (item :: st.imageState.history).take 10 } }

/-- The `finally` clause of `generateImage`/`editImage`:
`setStatus(isLiveActive ? AppStatus.VOICE_ACTIVE : AppStatus.IDLE)`. -/
def restoreStatus (live : Bool) : AppStatus :=
  if live then AppStatus.VOICE_ACTIVE else AppStatus.IDLE

/-- The result of one creative action: the state after the handler ran
to completion, the `console.error` messages it emitted, and the text of
the remote request it issued (`none` when no request was sent). -/
structure ActionResult where
  state : AppState
  logs : List String
  request : Option String
deriving Repr, DecidableEq

/-- `generateImage` (`src/App.tsx` lines 45-77).  Sets status to
GENERATING, issues one request with the quality-qualified prompt, takes
the first inline-image part of the response (if any) into the image
state, logs on a thrown error, and in `finally` restores the status
from `isLiveActive`. -/
def generateImage (prompt : String) (st : AppState) (o : GenOutcome) (ts : String) :
    ActionResult :=
  let st1 := { st with status := AppStatus.GENERATING }
  let req := "High quality, aesthetic, " ++ prompt
  match o with
  | GenOutcome.threw =>
      { state := { st1 with status := restoreStatus st.isLiveActive }
        logs := ["生成失败:"], request := some req }
  | GenOutcome.response parts =>
      match firstInlineData parts with
      | some d =>
          { state := { applyInline st1 d ts with status := restoreStatus st.isLiveActive }
            logs := [], request := some req }
      | none =>
          { state := { st1 with status := restoreStatus st.isLiveActive }
            logs := [], request := some req }

/-- JavaScript falsiness of the `imageState.base64` field: `null`
(here `none`) and the empty string are falsy. -/
def falsy : Option String → Bool
  | none => true
  | some s => decide (s = "")

/-- `editImage` (`src/App.tsx` lines 79-116).  Returns immediately when
`imageState.base64` is falsy (`if (!imageState.base64) return;`),
issuing no request.  Otherwise sets status to EDITING, issues one
request carrying the current artifact and the edit instruction, and
handles the response exactly as `generateImage` does. -/
def editImage (prompt : String) (st : AppState) (o : GenOutcome) (ts : String) :
    ActionResult :=
  if falsy st.imageState.base64 then { state := st, logs := [], request := none }
  else
    let st1 := { st with status := AppStatus.EDITING }
    let req := "Modify the image based on this: " ++ prompt
    match o with
    | GenOutcome.threw =>
        { state := { st1 with status := restoreStatus st.isLiveActive }
          logs := ["编辑失败:"], request := some req }
    | GenOutcome.response parts =>
        match firstInlineData parts with
        | some d =>
            { state := { applyInline st1 d ts with status := restoreStatus st.isLiveActive }
              logs := [], request := some req }
        | none =>
            { state := { st1 with status := restoreStatus st.isLiveActive }
              logs := [], request := some req }

/-- `handleImageUpload` (`src/App.tsx` lines 296-313) after the
`FileReader` produced `dataUrl`: the raw form is the substring after the
first comma of the data URL, and the new item is prepended to the
history with `slice(0, 10)`. -/
def handleImageUpload (dataUrl ts : String) (st : AppState) : AppState :=
  let base64 := (dataUrl.splitOn ",").getD 1 ""
  let item : HistoryItem := { url := dataUrl, base64 := base64, timestamp := ts }
  { st with imageState :=
      { url := some dataUrl
        base64 := some base64
        timestamp := some ts
        history := (item :: st.imageState.history).take 10 } }

/-- One `fc` of `msg.toolCall.functionCalls`: its correlation id, name,
and the two argument fields the handler reads (`args.prompt`,
`args.textContent`). -/
structure FunctionCall where
  id : String
  name : String
  prompt : String
  textContent : Option String
deriving Repr, DecidableEq

/-- The acknowledgement `session.sendToolResponse({ functionResponses:
{ id, name, response: { result } } })`. -/
structure ToolResponse where
  id : String
  name : String
  result : String
deriving Repr, DecidableEq

/-- A dispatched creative action. -/
inductive CreativeAction where
  | generate (prompt : String)
  | edit (prompt : String)
deriving Repr, DecidableEq

/-- The effective prompt passed to `editImage`:
`fc.args.prompt + (fc.args.textContent ? `. Text to add: …` : '')` —
the ternary tests JavaScript truthiness, so a missing or empty
`textContent` contributes nothing. -/
def effPrompt (fc : FunctionCall) : String :=
  fc.prompt ++
    (match fc.textContent with
     | some t => if t = "" then "" else ". Text to add: " ++ t
     | none => "")

/-- The dispatch conditional of the `functionCalls` loop (`src/App.tsx`
lines 210-214): `generateImage` dispatches a generation with the raw
prompt; `editImage` and `posterLayout` dispatch an edit with the
effective prompt; any other name dispatches nothing. -/
def dispatchCall (fc : FunctionCall) : Option CreativeAction :=
  if fc.name = "generateImage" then some (CreativeAction.generate fc.prompt)
  else if fc.name = "editImage" ∨ fc.name = "posterLayout" then
    some (CreativeAction.edit (effPrompt fc))
  else none

/-- Run one dispatched action (or nothing) against the state. -/
def runAction (st : AppState) (o : GenOutcome) (ts : String) :
    Option CreativeAction → ActionResult
  | none => { state := st, logs := [], request := none }
  | some (CreativeAction.generate p) => generateImage p st o ts
  | some (CreativeAction.edit p) => editImage p st o ts

/-- The `msg.toolCall` branch of `onmessage` (`src/App.tsx` lines
208-224): for each function call, dispatch per `dispatchCall`, then send
the acknowledgement `{ id, name, result: "ok" }` — guarded by
`if (sessionRef.current)`.  Each call is paired with the outcome its
dispatched request would have.  Returns the final state, the
concatenated logs, and the acknowledgements sent, in order. -/
def processToolCall (ts : String) :
    AppState → List (FunctionCall × GenOutcome) →
      AppState × List String × List ToolResponse
  | st, [] => (st, [], [])
  | st, (fc, o) :: rest =>
      let r := runAction st o ts (dispatchCall fc)
      let ack : List ToolResponse :=
        if r.state.session.isSome then [{ id := fc.id, name := fc.name, result := "ok" }]
        else []
      let rec3 := processToolCall ts r.state rest
      (rec3.1, r.logs ++ rec3.2.1, ack ++ rec3.2.2)

/-- The controller state used for the session-lifecycle claims: the
component state together with the environment's book-keeping of which
remote connections exist (`openConns`, in initiation order) and a
supply of fresh connection ids.  A connection enters `openConns` when
`ai.live.connect` initiates it and leaves only when it is closed via
the session reference — a connection whose reference is overwritten
without `close()` stays alive. -/
structure SysState where
  app : AppState
  openConns : List Nat
  nextId : Nat
deriving Repr, DecidableEq

/-- The initial controller state: fresh component, no open connection. -/
def initSys : SysState :=
  { app := initState, openConns := [], nextId := 0 }

/-- `stopVoiceSession` at the controller level: the session reference is
cleared (step 1 of the source) and, because `s.close()` is invoked on
the referenced session, that connection leaves the open set. -/
def stopSys (s : SysState) : SysState :=
  { s with
    app := stopVoiceSession s.app
    openConns :=
      match s.app.session with
      | some sid => s.openConns.erase sid
      | none => s.openConns }

/-- One run of `startVoiceSession` (`src/App.tsx` lines 154-252) up to
and including line 251, i.e. through its suspension points (`await
getUserMedia`, the asynchronous `ai.live.connect`): if `isLiveActive`
is set, the call routes to `stopVoiceSession` and returns (lines
155-158); otherwise the handler sets status VOICE_CONNECTING, opens
fresh contexts, acquires the microphone stream, initiates a new remote
connection and stores its promise in `sessionRef` — overwriting any
previous reference *without closing it*.  `isLiveActive` is NOT set
here: that happens only in the separate `onopen` callback, so until
`onopen` fires the line-155 guard still sees `isLiveActive === false`. -/
def startPressed (s : SysState) : SysState :=
  if s.app.isLiveActive then stopSys s
  else
    { app :=
        { s.app with
          status := AppStatus.VOICE_CONNECTING
          session := some s.nextId
          stream := some s.nextId
          audioContext := some { inputClosed := false, outputClosed := false } }
      openConns := s.openConns ++ [s.nextId]
      nextId := s.nextId + 1 }

/-- The `onopen` callback (`src/App.tsx` lines 173-175):
`setIsLiveActive(true); setStatus(AppStatus.VOICE_ACTIVE)`. -/
def opened (s : SysState) : SysState :=
  { s with app := { s.app with isLiveActive := true, status := AppStatus.VOICE_ACTIVE } }

/-- The events that drive the session lifecycle: the user's toggle
press (run to its final suspension point), a connection's `onopen`
callback, an explicit stop, and the remote `onclose`/`onerror`
callbacks — the latter three all route to `stopVoiceSession` in the
source. -/
inductive LiveEvent where
  | startPressed
  | opened
  | stopPressed
  | remoteClose
  | remoteError

/-- One lifecycle event handled by the event loop. -/
def stepLive : LiveEvent → SysState → SysState
  | LiveEvent.startPressed => startPressed
  | LiveEvent.opened => opened
  | LiveEvent.stopPressed => stopSys
  | LiveEvent.remoteClose => stopSys
  | LiveEvent.remoteError => stopSys

/-- States reachable from the initial controller state by lifecycle
events. -/
inductive ReachableLive : SysState → Prop
  | init : ReachableLive initSys
  | step (e : LiveEvent) {s : SysState} :
      ReachableLive s → ReachableLive (stepLive e s)

/-! ## Helper lemmas -/

lemma stopAllSources_map_fst (l : List PlaybackSource) :
    (stopAllSources l).map Prod.fst = l.map PlaybackSource.id := by
  induction l with
  | nil => rfl
  | cons s rest ih => simp [stopAllSources, ih]

lemma generateImage_session (p : String) (st : AppState) (o : GenOutcome) (ts : String) :
    (generateImage p st o ts).state.session = st.session := by
  cases o with
  | threw => rfl
  | response parts =>
      cases h : firstInlineData parts <;> simp [generateImage, h, applyInline]

lemma editImage_session (p : String) (st : AppState) (o : GenOutcome) (ts : String) :
    (editImage p st o ts).state.session = st.session := by
  unfold editImage
  split
  · rfl
  · cases o with
    | threw => rfl
    | response parts =>
        cases h : firstInlineData parts <;> simp [h, applyInline]

lemma runAction_session (st : AppState) (o : GenOutcome) (ts : String)
    (a : Option CreativeAction) :
    (runAction st o ts a).state.session = st.session := by
  cases a with
  | none => rfl
  | some act =>
      cases act with
      | generate p => exact generateImage_session p st o ts
      | edit p => exact editImage_session p st o ts

/-! ## Claim theorems -/

/-- Claim C2: `stopVoiceSession` is idempotent — calling it twice in a
row equals calling it once — and after any call (including on a
never-started session) the session reference, microphone stream, audio
contexts, active-source set, playback cursor, active-voice flag, status
and AI utterance text all equal those of the freshly-constructed idle
state; moreover the handler is a total function, so no error escapes. -/
theorem c2_stop_idempotent (st : AppState) :
    stopVoiceSession (stopVoiceSession st) = stopVoiceSession st ∧
    (stopVoiceSession st).session = initState.session ∧
    (stopVoiceSession st).stream = initState.stream ∧
    (stopVoiceSession st).audioContext = initState.audioContext ∧
    (stopVoiceSession st).sources = initState.sources ∧
    (stopVoiceSession st).nextStartTime = initState.nextStartTime ∧
    (stopVoiceSession st).isLiveActive = initState.isLiveActive ∧
    (stopVoiceSession st).status = initState.status ∧
    (stopVoiceSession st).aiResponseText = initState.aiResponseText ∧
    stopVoiceSession initState = initState :=
  ⟨rfl, rfl, rfl, rfl, rfl, rfl, rfl, rfl, rfl, rfl⟩

/-- Claim C7: handling the interruption flag leaves the active-source
set empty and the playback cursor at zero, for any number of active
sources; every active source receives exactly one `stop` call (the ids
of the issued stops are exactly the ids of the previously active
sources, in order), and the resulting state is the same whether or not
any of those stops threw — the errors are swallowed. -/
theorem c7_interrupt_clears (st : AppState) :
    (handleInterrupted st).1.sources = [] ∧
    (handleInterrupted st).1.nextStartTime = 0 ∧
    (handleInterrupted st).2.map Prod.fst = st.sources.map PlaybackSource.id ∧
    (handleInterrupted st).1 = { st with sources := [], nextStartTime := 0 } :=
  ⟨rfl, rfl, stopAllSources_map_fst st.sources, rfl⟩

/-- Claim C9: `editImage` with no current raw-encoded artifact is a
no-op — it returns immediately with the state (status, history, current
artifact) unchanged, emits no log, and issues no remote request. -/
theorem c9_edit_noop (prompt : String) (st : AppState) (o : GenOutcome) (ts : String)
    (h : st.imageState.base64 = none) :
    editImage prompt st o ts = { state := st, logs := [], request := none } := by
  simp [editImage, falsy, h]

/-- Witness for C9 at the freshly-constructed state. -/
theorem c9_edit_noop_witness :
    editImage "make it blue" initState GenOutcome.threw "12:00:00" =
      { state := initState, logs := [], request := none } :=
  c9_edit_noop "make it blue" initState GenOutcome.threw "12:00:00" rfl

lemma scheduleChunks_contig (cs : List AudioChunk) :
    ∀ cursor : ℚ,
      List.Chain' (fun a b : ℚ × ℚ => a.1 + a.2 ≤ b.1)
        ((scheduleChunks cursor cs).zip (cs.map AudioChunk.duration)) := by
  induction cs with
  | nil => intro cursor; simp [scheduleChunks]
  | cons c rest ih =>
      intro cursor
      cases rest with
      | nil => simp [scheduleChunks]
      | cons c2 rest2 =>
          simp only [scheduleChunks, List.map_cons, List.zip_cons_cons]
          refine List.chain'_cons.mpr ⟨le_max_left _ _, ?_⟩
          have h := ih (max cursor c.ctxTime + c.duration)
          simpa only [scheduleChunks, List.map_cons, List.zip_cons_cons] using h

lemma scheduleChunks_mono (cs : List AudioChunk) :
    ∀ cursor : ℚ, (∀ c ∈ cs, 0 ≤ c.duration) →
      List.Chain' (fun a b : ℚ => a ≤ b) (scheduleChunks cursor cs) := by
  induction cs with
  | nil => intro cursor _; simp [scheduleChunks]
  | cons c rest ih =>
      intro cursor hdur
      cases rest with
      | nil => simp [scheduleChunks]
      | cons c2 rest2 =>
          simp only [scheduleChunks]
          refine List.chain'_cons.mpr ⟨?_, ?_⟩
          · calc max cursor c.ctxTime
                ≤ max cursor c.ctxTime + c.duration :=
                  le_add_of_nonneg_right (hdur c (by simp))
              _ ≤ max (max cursor c.ctxTime + c.duration) c2.ctxTime := le_max_left _ _
          · have h := ih (max cursor c.ctxTime + c.duration)
              (fun x hx => hdur x (List.mem_cons_of_mem _ hx))
            simpa only [scheduleChunks] using h

/-- Claim C1: over any run of inbound audio chunks handled without an
intervening interruption, each chunk is scheduled to start at
`max cursor ctxTime` after which the cursor advances by the chunk's
duration (first conjunct, the per-step law of `scheduleChunks`); pairing
each scheduled start with its chunk's duration, every start is at least
the previous start plus the previous duration (second conjunct,
contiguity — no overlap); and with nonnegative durations the start
times are non-decreasing (third conjunct). -/
theorem c1_gapless_scheduling (cursor : ℚ) (cs : List AudioChunk)
    (hdur : ∀ c ∈ cs, 0 ≤ c.duration) :
    (∀ (t : ℚ) (c : AudioChunk) (rest : List AudioChunk),
        scheduleChunks t (c :: rest) =
          max t c.ctxTime :: scheduleChunks (max t c.ctxTime + c.duration) rest) ∧
    List.Chain' (fun a b : ℚ × ℚ => a.1 + a.2 ≤ b.1)
      ((scheduleChunks cursor cs).zip (cs.map AudioChunk.duration)) ∧
    List.Chain' (fun a b : ℚ => a ≤ b) (scheduleChunks cursor cs) :=
  ⟨fun _ _ _ => rfl, scheduleChunks_contig cs cursor, scheduleChunks_mono cs cursor hdur⟩

/-- A concrete run of two chunks used by the claim witnesses. -/
def demoChunks : List AudioChunk :=
  [{ ctxTime := 0, duration := 1 }, { ctxTime := 1/2, duration := 2 }]

/-- Witness for C1 on a concrete two-chunk run. -/
theorem c1_gapless_scheduling_witness :
    List.Chain' (fun a b : ℚ × ℚ => a.1 + a.2 ≤ b.1)
      ((scheduleChunks 0 demoChunks).zip (demoChunks.map AudioChunk.duration)) ∧
    List.Chain' (fun a b : ℚ => a ≤ b) (scheduleChunks 0 demoChunks) :=
  ⟨(c1_gapless_scheduling 0 demoChunks (by decide)).2.1,
   (c1_gapless_scheduling 0 demoChunks (by decide)).2.2⟩

/-- A generation/edit request failed: the request threw, or the
response carried no inline-image part. -/
def genFailed : GenOutcome → Bool
  | GenOutcome.threw => true
  | GenOutcome.response parts => (firstInlineData parts).isNone

/-- A state holding a current artifact, used by the claim witnesses. -/
def demoState : AppState :=
  { initState with imageState :=
      { url := some "data:image/png;base64,img0"
        base64 := some "img0"
        timestamp := some "11:00:00"
        history := [{ url := "data:image/png;base64,img0", base64 := "img0",
                      timestamp := "11:00:00" }] } }

/-- Counterexample to claim C4 as stated: a response without any
inline-image payload is a failure (`genFailed` holds), yet neither
`generateImage` nor `editImage` logs anything on that path — the
`console.error` calls sit only in the `catch` blocks, and a payload-free
response throws nothing. -/
theorem c4_counterexample :
    genFailed (GenOutcome.response []) = true ∧
    (generateImage "p" demoState (GenOutcome.response []) "12:00:00").logs = [] ∧
    (editImage "p" demoState (GenOutcome.response []) "12:00:00").logs = [] := by
  refine ⟨rfl, rfl, ?_⟩
  simp [editImage, falsy, demoState, initState, firstInlineData]

/-- Claim C4 (amended): on every failed generate or edit (thrown
request, or response without an inline-image payload) the image
artifact and history are unchanged, no exception propagates (the
handlers are total), and status is restored to VOICE_ACTIVE when a
voice session is active and IDLE otherwise; a thrown request is logged,
while a payload-free response is silently ignored without a log. -/
theorem c4_failure_restores_status (prompt ts : String) (st : AppState) (o : GenOutcome)
    (h : genFailed o = true) :
    ((generateImage prompt st o ts).state.imageState = st.imageState ∧
     (generateImage prompt st o ts).state.status =
       (if st.isLiveActive then AppStatus.VOICE_ACTIVE else AppStatus.IDLE) ∧
     (generateImage prompt st o ts).logs =
       (if o = GenOutcome.threw then ["生成失败:"] else [])) ∧
    (falsy st.imageState.base64 = false →
     (editImage prompt st o ts).state.imageState = st.imageState ∧
     (editImage prompt st o ts).state.status =
       (if st.isLiveActive then AppStatus.VOICE_ACTIVE else AppStatus.IDLE) ∧
     (editImage prompt st o ts).logs =
       (if o = GenOutcome.threw then ["编辑失败:"] else [])) := by
  cases o with
  | threw =>
      refine ⟨⟨rfl, ?_, rfl⟩, fun hb => ⟨?_, ?_, ?_⟩⟩
      · simp [generateImage, restoreStatus]
      · simp [editImage, hb]
      · simp [editImage, hb, restoreStatus]
      · simp [editImage, hb]
  | response parts =>
      have hfid : firstInlineData parts = none := by
        simpa [genFailed, Option.isNone_iff_eq_none] using h
      refine ⟨⟨?_, ?_, ?_⟩, fun hb => ⟨?_, ?_, ?_⟩⟩
      · simp [generateImage, hfid]
      · simp [generateImage, hfid, restoreStatus]
      · simp [generateImage, hfid]
      · simp [editImage, hb, hfid]
      · simp [editImage, hb, hfid, restoreStatus]
      · simp [editImage, hb, hfid]

/-- Witness for the amended C4: a thrown generate and a thrown edit on
a state with a current artifact. -/
theorem c4_failure_restores_status_witness :
    ((generateImage "p" demoState GenOutcome.threw "12:00:00").state.imageState =
        demoState.imageState ∧
     (generateImage "p" demoState GenOutcome.threw "12:00:00").state.status =
       (if demoState.isLiveActive then AppStatus.VOICE_ACTIVE else AppStatus.IDLE) ∧
     (generateImage "p" demoState GenOutcome.threw "12:00:00").logs =
       (if (GenOutcome.threw : GenOutcome) = GenOutcome.threw then ["生成失败:"] else [])) ∧
    ((editImage "p" demoState GenOutcome.threw "12:00:00").state.imageState =
        demoState.imageState ∧
     (editImage "p" demoState GenOutcome.threw "12:00:00").state.status =
       (if demoState.isLiveActive then AppStatus.VOICE_ACTIVE else AppStatus.IDLE) ∧
     (editImage "p" demoState GenOutcome.threw "12:00:00").logs =
       (if (GenOutcome.threw : GenOutcome) = GenOutcome.threw then ["编辑失败:"] else [])) :=
  ⟨(c4_failure_restores_status "p" "12:00:00" demoState GenOutcome.threw rfl).1,
   (c4_failure_restores_status "p" "12:00:00" demoState GenOutcome.threw rfl).2 (by decide)⟩

/-- Claim C5: after every image mutation — successful generate,
successful edit, or manual upload — the history is the new item
prepended to the first nine old entries (newest at index 0, order
preserved), so it never exceeds 10 entries; and when the history was
full (10 entries), taking the first nine drops exactly the oldest
entry. -/
theorem c5_history_bounded (prompt dataUrl ts : String) (st : AppState)
    (parts : List RespPart) (d b : String)
    (hd : firstInlineData parts = some d)
    (hb : st.imageState.base64 = some b) (hbne : b ≠ "") :
    ((generateImage prompt st (GenOutcome.response parts) ts).state.imageState.history =
        mkHistoryItem d ts :: st.imageState.history.take 9 ∧
      (generateImage prompt st (GenOutcome.response parts) ts).state.imageState.history.length
        ≤ 10) ∧
    ((editImage prompt st (GenOutcome.response parts) ts).state.imageState.history =
        mkHistoryItem d ts :: st.imageState.history.take 9 ∧
      (editImage prompt st (GenOutcome.response parts) ts).state.imageState.history.length
        ≤ 10) ∧
    ((handleImageUpload dataUrl ts st).imageState.history =
        { url := dataUrl, base64 := (dataUrl.splitOn ",").getD 1 "", timestamp := ts } ::
          st.imageState.history.take 9 ∧
      (handleImageUpload dataUrl ts st).imageState.history.length ≤ 10) ∧
    (st.imageState.history.length = 10 →
      st.imageState.history.take 9 = st.imageState.history.dropLast) := by
  have hfal : falsy st.imageState.base64 = false := by
    simp [falsy, hb, hbne]
  refine ⟨⟨?_, ?_⟩, ⟨?_, ?_⟩, ⟨?_, ?_⟩, ?_⟩
  · simp [generateImage, hd, applyInline, List.take_succ_cons]
  · simp [generateImage, hd, applyInline, List.length_take]
  · simp [editImage, hfal, hd, applyInline, List.take_succ_cons]
  · simp [editImage, hfal, hd, applyInline, List.length_take]
  · simp [handleImageUpload, List.take_succ_cons]
  · simp [handleImageUpload, List.length_take]
  · intro hlen
    rw [List.dropLast_eq_take, hlen]

/-- Witness for C5: a successful generate, edit and upload on a state
holding one artifact. -/
theorem c5_history_bounded_witness :
    ((generateImage "p" demoState
          (GenOutcome.response [{ inlineData := some "img1", text := none }])
          "12:00:00").state.imageState.history =
        mkHistoryItem "img1" "12:00:00" :: demoState.imageState.history.take 9 ∧
      (generateImage "p" demoState
          (GenOutcome.response [{ inlineData := some "img1", text := none }])
          "12:00:00").state.imageState.history.length ≤ 10) ∧
    ((handleImageUpload "data:image/png;base64,up1" "12:00:00" demoState).imageState.history =
        { url := "data:image/png;base64,up1"
          base64 := (("data:image/png;base64,up1").splitOn ",").getD 1 ""
          timestamp := "12:00:00" } :: demoState.imageState.history.take 9 ∧
      (handleImageUpload "data:image/png;base64,up1" "12:00:00"
          demoState).imageState.history.length ≤ 10) :=
  ⟨(c5_history_bounded "p" "data:image/png;base64,up1" "12:00:00" demoState
      [{ inlineData := some "img1", text := none }] "img1" "img0"
      rfl rfl (by decide)).1,
   (c5_history_bounded "p" "data:image/png;base64,up1" "12:00:00" demoState
      [{ inlineData := some "img1", text := none }] "img1" "img0"
      rfl rfl (by decide)).2.2.1⟩

/-- Claim C6: the dispatch rule of the tool-call loop.  A
`generateImage` invocation dispatches a generation with its prompt; an
`editImage` invocation (whose advertised schema carries no
`textContent`) dispatches an edit with its prompt alone; a
`posterLayout` invocation dispatches an edit whose effective prompt is
`prompt ++ ". Text to add: " ++ textContent` when `textContent` is
present (non-empty), and the prompt alone when absent. -/
theorem c6_dispatch_rule (fc : FunctionCall) :
    (fc.name = "generateImage" →
      dispatchCall fc = some (CreativeAction.generate fc.prompt)) ∧
    (fc.name = "editImage" → fc.textContent = none →
      dispatchCall fc = some (CreativeAction.edit fc.prompt)) ∧
    (fc.name = "posterLayout" →
      (∀ t, fc.textContent = some t → t ≠ "" →
        dispatchCall fc =
          some (CreativeAction.edit (fc.prompt ++ ". Text to add: " ++ t))) ∧
      (fc.textContent = none →
        dispatchCall fc = some (CreativeAction.edit fc.prompt))) := by
  refine ⟨fun hn => ?_, fun hn htc => ?_, fun hn => ⟨fun t htc htne => ?_, fun htc => ?_⟩⟩
  · simp [dispatchCall, hn]
  · simp [dispatchCall, effPrompt, hn, htc]
  · simp [dispatchCall, effPrompt, hn, htc, htne, String.append_assoc]
  · simp [dispatchCall, effPrompt, hn, htc]

/-- Witness for C6 on the three tool names. -/
theorem c6_dispatch_rule_witness :
    dispatchCall { id := "1", name := "generateImage", prompt := "p", textContent := none } =
      some (CreativeAction.generate "p") ∧
    dispatchCall { id := "2", name := "editImage", prompt := "q", textContent := none } =
      some (CreativeAction.edit "q") ∧
    dispatchCall { id := "3", name := "posterLayout", prompt := "r", textContent := some "T" } =
      some (CreativeAction.edit ("r" ++ ". Text to add: " ++ "T")) :=
  ⟨(c6_dispatch_rule
      { id := "1", name := "generateImage", prompt := "p", textContent := none }).1 rfl,
   (c6_dispatch_rule
      { id := "2", name := "editImage", prompt := "q", textContent := none }).2.1 rfl rfl,
   ((c6_dispatch_rule
      { id := "3", name := "posterLayout", prompt := "r", textContent := some "T" }).2.2
      rfl).1 "T" rfl (by decide)⟩

/-- A state with an active session, used by the claim witnesses. -/
def liveState : AppState :=
  { initState with
    session := some 0
    stream := some 0
    audioContext := some { inputClosed := false, outputClosed := false }
    isLiveActive := true
    status := AppStatus.VOICE_ACTIVE }

/-- Claim C3: while the session reference is set, every tool invocation
in an inbound message produces exactly one acknowledgement carrying the
invocation's own id and name with result "ok", in receive order — for
every assignment of outcomes (success, payload-free response, or thrown
request) to the dispatched creative actions, so a local failure is
acknowledged as completed and never surfaced as a protocol error. -/
theorem c3_every_call_acked (ts : String) (st : AppState)
    (l : List (FunctionCall × GenOutcome)) (h : st.session.isSome = true) :
    (processToolCall ts st l).2.2 =
      l.map (fun p => { id := p.1.id, name := p.1.name, result := "ok" }) := by
  induction l generalizing st with
  | nil => rfl
  | cons p rest ih =>
      obtain ⟨fc, o⟩ := p
      have hsess := runAction_session st o ts (dispatchCall fc)
      have h2 : (runAction st o ts (dispatchCall fc)).state.session.isSome = true := by
        rw [hsess]; exact h
      simp [processToolCall, h2, ih _ h2]

/-- A two-invocation inbound tool call whose first action throws and
whose second returns no image: both local failures. -/
def demoCalls : List (FunctionCall × GenOutcome) :=
  [({ id := "1", name := "generateImage", prompt := "p", textContent := none },
    GenOutcome.threw),
   ({ id := "2", name := "editImage", prompt := "q", textContent := none },
    GenOutcome.response [])]

/-- Witness for C3: two failing invocations each get exactly one "ok"
acknowledgement with their own id and name. -/
theorem c3_every_call_acked_witness :
    (processToolCall "12:00:00" liveState demoCalls).2.2 =
      [{ id := "1", name := "generateImage", result := "ok" },
       { id := "2", name := "editImage", result := "ok" }] :=
  c3_every_call_acked "12:00:00" liveState demoCalls rfl

/-- Claim C10: a tool invocation whose name is none of `generateImage`,
`editImage`, `posterLayout` dispatches no creative action and leaves the
state (image state and status included) unchanged, yet — the session
being active — still receives the acknowledgement with its id and name
and result "ok". -/
theorem c10_unknown_tool_acked (fc : FunctionCall) (o : GenOutcome) (ts : String)
    (st : AppState)
    (h1 : fc.name ≠ "generateImage") (h2 : fc.name ≠ "editImage")
    (h3 : fc.name ≠ "posterLayout") (hs : st.session.isSome = true) :
    dispatchCall fc = none ∧
    processToolCall ts st [(fc, o)] =
      (st, [], [{ id := fc.id, name := fc.name, result := "ok" }]) := by
  have hd : dispatchCall fc = none := by simp [dispatchCall, h1, h2, h3]
  refine ⟨hd, ?_⟩
  simp [processToolCall, hd, runAction, hs]

/-- Witness for C10 with an unknown tool name on an active session. -/
theorem c10_unknown_tool_acked_witness :
    dispatchCall { id := "9", name := "mysteryTool", prompt := "p", textContent := none } =
      none ∧
    processToolCall "12:00:00" liveState
        [({ id := "9", name := "mysteryTool", prompt := "p", textContent := none },
          GenOutcome.threw)] =
      (liveState, [], [{ id := "9", name := "mysteryTool", result := "ok" }]) :=
  c10_unknown_tool_acked
    { id := "9", name := "mysteryTool", prompt := "p", textContent := none }
    GenOutcome.threw "12:00:00" liveState (by decide) (by decide) (by decide) rfl

/-- Claim C8 (code bug): the double-start trace.  Pressing the toggle
once from the fresh state leaves the app in the VOICE_CONNECTING window
with `isLiveActive` still false (the flag is set only by `onopen`), so a
second press during that window passes the line-155 guard, runs the full
start path again, and initiates a second remote connection while the
first — its `sessionRef` overwritten without `close()` — is still alive:
`openConns = [0, 1]`, two concurrent voice sessions, falsifying the
claimed at-most-one-session invariant on a legal event trace.  Once
`onopen` has fired, the toggle half of the claim does hold: a further
press routes to `stopVoiceSession` (last conjunct). -/
theorem c8_double_start_two_sessions :
    ReachableLive (stepLive LiveEvent.startPressed
      (stepLive LiveEvent.startPressed initSys)) ∧
    (stepLive LiveEvent.startPressed initSys).app.status =
      AppStatus.VOICE_CONNECTING ∧
    (stepLive LiveEvent.startPressed initSys).app.isLiveActive = false ∧
    (stepLive LiveEvent.startPressed
      (stepLive LiveEvent.startPressed initSys)).openConns = [0, 1] ∧
    (stepLive LiveEvent.startPressed
      (stepLive LiveEvent.startPressed initSys)).openConns.length = 2 ∧
    startPressed (opened (stepLive LiveEvent.startPressed initSys)) =
      stopSys (opened (stepLive LiveEvent.startPressed initSys)) :=
  ⟨ReachableLive.step LiveEvent.startPressed
      (ReachableLive.step LiveEvent.startPressed ReachableLive.init),
   rfl, rfl, rfl, rfl, rfl⟩
